import Mathlib

/-!
# USGRP-Auth: formal model of the authentication and approval core

Shallow embedding of the repository's core logic:

* `src/lib/db.ts`      — data model and persistence operations (users,
  sessions, approval requests, audit log, suspension, session limits);
* `src/lib/auth.ts`    — password hashing, JWT issuance/validation,
  `login`, `logout`;
* `src/app/api/approvals/route.ts` — the two-person-rule approval
  workflow (`PUT` decision handler and `executeApprovedAction`);
* the recovery-codes route (`PUT` handler consuming a recovery code);
* the login route (pending-2FA session bookkeeping);
* the roles library (`getEffectivePermissions`).

Modelling conventions:

* SQLite `TEXT` timestamps (`datetime('now')`, ISO strings) are modelled
  as `Nat` instants; each stateful operation takes the current instant
  `now` explicitly.
* The database is a `DBState` record of lists; SQL `WHERE id = ?`
  filters/updates translate to list filters/maps.
* bcrypt is modelled as an ideal injective one-way function
  (`bcryptHash`), with `bcryptCompare p h` true exactly when `h` is the
  hash of `p` — this captures the control flow of the code, which is
  what the claims are about.
* SHA-256 token hashing (`hashToken`) is modelled as an injective map
  (the token itself), reflecting collision-freeness.
* JSON-encoded columns (`roles`, `permissions`, `recovery_codes`,
  `action_data`) are modelled in decoded form.
* JavaScript truthiness on optional strings (`if (!x)`) is modelled by
  `jsFalsy` (`none` or the empty string).
-/

namespace USGRP

/-- JavaScript falsiness of an optional string: `undefined`/`null` or `""`. -/
def jsFalsy : Option String → Bool
  | none => true
  | some s => decide (s = "")

/-- JavaScript `a || b` on an optional string with a string default. -/
def jsOr (a : Option String) (b : String) : String :=
  match a with
  | none => b
  | some s => if s = "" then b else s

/-- Per-character lowercasing (model of JS `toLowerCase` on the ASCII emails
the system handles). -/
def lowerAscii (s : String) : String := ⟨s.data.map Char.toLower⟩

/-- Per-character uppercasing (model of JS `toUpperCase` on recovery codes). -/
def upperAscii (s : String) : String := ⟨s.data.map Char.toUpper⟩

/-! ## Roles library (`src/lib/roles.ts`) -/

/-- All permission strings, in `PERMISSIONS` declaration order. -/
def ALL_PERMISSIONS : List String :=
  ["mail:access", "mail:admin", "mail:shared_mailbox",
   "dashboard:view", "dashboard:appeals", "dashboard:users", "dashboard:analytics",
   "bot:commands", "bot:admin",
   "status:view", "status:manage",
   "auth:manage_users", "auth:manage_roles", "auth:view_audit"]

/-- `LEVEL_PERMISSIONS` keyed by authority level; levels outside 0–6 get `[]`
(the code's `LEVEL_PERMISSIONS[authorityLevel] || []`). -/
def LEVEL_PERMISSIONS : Nat → List String
  | 0 => ["mail:access", "dashboard:view", "status:view"]
  | 1 => ["mail:access", "dashboard:view", "dashboard:appeals", "bot:commands", "status:view"]
  | 2 => ["mail:access", "dashboard:view", "dashboard:appeals", "dashboard:analytics",
          "bot:commands", "status:view"]
  | 3 => ["mail:access", "mail:admin", "dashboard:view", "dashboard:appeals",
          "dashboard:users", "dashboard:analytics", "bot:commands", "bot:admin",
          "status:view", "status:manage", "auth:manage_users", "auth:view_audit"]
  | 4 => ["mail:access", "dashboard:view", "dashboard:users", "auth:manage_users",
          "auth:view_audit"]
  | 5 => ALL_PERMISSIONS
  | 6 => ["mail:access", "dashboard:view", "bot:commands", "bot:admin", "auth:view_audit"]
  | _ => []

/-- `getEffectivePermissions`: level defaults unioned with explicit grants
(`new Set([...levelPerms, ...explicitPermissions])`, first occurrence kept). -/
def getEffectivePermissions (authorityLevel : Nat) (explicitPermissions : List String) :
    List String :=
  (LEVEL_PERMISSIONS authorityLevel ++ explicitPermissions).eraseDups

/-! ## Password hashing (bcryptjs, modelled ideally) -/

/-- Ideal model of `bcrypt.hash`: injective, one-way. -/
def bcryptHash (password : String) : String := "$2b$12$" ++ password

/-- Ideal model of `bcrypt.compare`: succeeds exactly on the hashed password. -/
def bcryptCompare (password hash : String) : Bool := decide (hash = bcryptHash password)

/-! ## Token service (`src/lib/auth.ts`, jose) -/

def JWT_SECRET : String := "usgrp-auth-jwt-secret-change-in-production-32chars"
def JWT_ISSUER : String := "auth.usgrp.xyz"
def JWT_AUDIENCE : String := "usgrp.xyz"

/-- 7 days in seconds. -/
def SESSION_DURATION : Nat := 7 * 24 * 60 * 60
/-- 30 days in seconds. -/
def EXTENDED_SESSION_DURATION : Nat := 30 * 24 * 60 * 60

/-- The claim payload embedded in a signed token (`AuthToken` in auth.ts). -/
structure AuthToken where
  userId : String
  email : String
  discordId : Option String
  displayName : String
  authorityLevel : Nat
  roles : List String
  permissions : List String
  sessionId : String
deriving DecidableEq

/-- A compact signed token: payload plus registered claims and the key it was
signed with (modelling the HMAC signature). -/
structure JwtToken where
  payload : AuthToken
  iss : String
  aud : String
  iat : Nat
  exp : Nat
  signedWith : String
deriving DecidableEq

/-- Model of `jose.jwtVerify` with issuer/audience options: returns the payload
iff the signature, issuer and audience check out and the token is unexpired;
fails closed otherwise. -/
def jwtVerify (t : JwtToken) (secret iss aud : String) (now : Nat) : Option AuthToken :=
  if t.signedWith = secret ∧ t.iss = iss ∧ t.aud = aud ∧ now < t.exp then
    some t.payload
  else none

/-- SHA-256 of the serialized token, modelled injectively. -/
def hashToken (t : JwtToken) : JwtToken := t

/-! ## Data model (`src/lib/db.ts`) -/

structure User where
  id : String
  email : String
  password_hash : String
  discord_id : Option String
  display_name : String
  authority_level : Nat
  roles : List String
  permissions : List String
  enabled : Nat
  suspended : Nat
  suspended_reason : Option String
  suspended_at : Option Nat
  suspended_by : Option String
  totp_secret : Option String
  totp_enabled : Nat
  recovery_codes : Option (List String)
  created_at : Nat
  updated_at : Nat
deriving DecidableEq

structure Session where
  id : String
  user_id : String
  token_hash : JwtToken
  ip : Option String
  user_agent : Option String
  device_name : Option String
  device_fingerprint : Option String
  last_active : Nat
  is_remembered : Nat
  expires_at : Nat
  created_at : Nat
deriving DecidableEq

/-- Decoded `action_data` JSON payload (`actionData.reason`, `actionData.newLevel`). -/
structure ActionPayload where
  reason : Option String
  newLevel : Option Nat
deriving DecidableEq

structure ApprovalRequest where
  id : String
  requester_id : String
  approver_id : Option String
  action_type : String
  target_user : Option String
  action_data : Option ActionPayload
  reason : String
  status : String
  expires_at : Nat
  created_at : Nat
  resolved_at : Option Nat
  approver_reason : Option String
deriving DecidableEq

structure AuditLogEntry where
  user_id : Option String
  action : String
  target : Option String
  details : Option String
  ip : Option String
  created_at : Nat
deriving DecidableEq

/-- The persistent store. -/
structure DBState where
  users : List User
  sessions : List Session
  approvals : List ApprovalRequest
  audit : List AuditLogEntry
deriving DecidableEq

/-! ## Persistence operations (`src/lib/db.ts`) -/

def getUserById (st : DBState) (id : String) : Option User :=
  st.users.find? (fun u => decide (u.id = id))

/-- `getUserByEmail` lowercases its argument before the lookup. -/
def getUserByEmail (st : DBState) (email : String) : Option User :=
  st.users.find? (fun u => decide (u.email = lowerAscii email))

def getSessionById (st : DBState) (id : String) : Option Session :=
  st.sessions.find? (fun s => decide (s.id = id))

def getSessionByTokenHash (st : DBState) (h : JwtToken) : Option Session :=
  st.sessions.find? (fun s => decide (s.token_hash = h))

/-- `logAudit`: append-only insert into `audit_log`. -/
def logAudit (st : DBState) (now : Nat) (userId : Option String) (action : String)
    (target details ip : Option String) : DBState :=
  let entry : AuditLogEntry :=
    { user_id := userId, action := action, target := target, details := details,
      ip := ip, created_at := now }
  { st with audit := st.audit ++ [entry] }

/-- Input to `createSession` (fields the caller supplies). -/
structure CreateSessionInput where
  id : String
  user_id : String
  token_hash : JwtToken
  ip : Option String
  user_agent : Option String
  is_remembered : Nat
  expires_at : Nat
deriving DecidableEq

/-- `createSession`: INSERT with `id` PRIMARY KEY and `token_hash` UNIQUE;
a constraint violation is caught and yields `null` with no row inserted.
`last_active` and `created_at` are set to `datetime('now')`. -/
def createSession (st : DBState) (now : Nat) (inp : CreateSessionInput) :
    Option Session × DBState :=
  if st.sessions.any (fun s => decide (s.id = inp.id) || decide (s.token_hash = inp.token_hash))
  then (none, st)
  else
    let s : Session :=
      { id := inp.id, user_id := inp.user_id, token_hash := inp.token_hash, ip := inp.ip,
        user_agent := inp.user_agent, device_name := none, device_fingerprint := none,
        last_active := now, is_remembered := inp.is_remembered, expires_at := inp.expires_at,
        created_at := now }
    (some s, { st with sessions := st.sessions ++ [s] })

/-- `deleteSession`: `DELETE FROM sessions WHERE id = ?`; returns `changes > 0`. -/
def deleteSession (st : DBState) (sessionId : String) : Bool × DBState :=
  let remaining := st.sessions.filter (fun s => !decide (s.id = sessionId))
  (decide (remaining.length < st.sessions.length), { st with sessions := remaining })

/-- `deleteAllUserSessions(userId, exceptSessionId?)`; returns the change count. -/
def deleteAllUserSessions (st : DBState) (userId : String) (exceptSessionId : Option String) :
    Nat × DBState :=
  match exceptSessionId with
  | some keep =>
      let remaining := st.sessions.filter
        (fun s => !(decide (s.user_id = userId) && !decide (s.id = keep)))
      (st.sessions.length - remaining.length, { st with sessions := remaining })
  | none =>
      let remaining := st.sessions.filter (fun s => !decide (s.user_id = userId))
      (st.sessions.length - remaining.length, { st with sessions := remaining })

def MAX_SESSIONS : Nat := 2

/-- Stable insertion used to model the descending-by-`last_active` orderings
(SQL `ORDER BY last_active DESC` and the JS comparator sort). -/
def insertDescLastActive (x : Session) : List Session → List Session
  | [] => [x]
  | y :: ys =>
      if y.last_active ≤ x.last_active then x :: y :: ys
      else y :: insertDescLastActive x ys

def sortDescLastActive : List Session → List Session
  | [] => []
  | x :: xs => insertDescLastActive x (sortDescLastActive xs)

/-- `getUserSessions`: sessions of the user with `expires_at > now`,
ordered by `last_active` descending. -/
def getUserSessions (st : DBState) (now : Nat) (userId : String) : List Session :=
  sortDescLastActive
    (st.sessions.filter (fun s => decide (s.user_id = userId) && decide (now < s.expires_at)))

/-- `updateSessionActivity` (touch): sets `last_active` to now for the session. -/
def updateSessionActivity (st : DBState) (now : Nat) (sessionId : String) : DBState :=
  let touch : Session → Session :=
    fun s => if s.id = sessionId then { s with last_active := now } else s
  { st with sessions := st.sessions.map touch }

/-- `enforceSessionLimit`: if the user is at or over `MAX_SESSIONS`, keep the
`MAX_SESSIONS - 1` most recently active sessions and delete the rest.
NOTE: defined in `db.ts` but not invoked by any caller in the repository. -/
def enforceSessionLimit (st : DBState) (now : Nat) (userId : String) : DBState :=
  let sessions := getUserSessions st now userId
  if MAX_SESSIONS ≤ sessions.length then
    let sessionsToKeep :=
      ((sortDescLastActive sessions).take (MAX_SESSIONS - 1)).map (fun s => s.id)
    sessions.foldl
      (fun acc s => if sessionsToKeep.contains s.id then acc else (deleteSession acc s.id).2)
      st
  else st

/-- `suspendUser`: sets the suspension sub-state on the user row and, when the
update changed a row, deletes all of the user's sessions. -/
def suspendUser (st : DBState) (now : Nat) (userId reason suspendedBy : String) :
    Bool × DBState :=
  let changed := st.users.any (fun u => decide (u.id = userId))
  let mark : User → User := fun u =>
    if u.id = userId then
      { u with suspended := 1, suspended_reason := some reason,
               suspended_at := some now, suspended_by := some suspendedBy,
               updated_at := now }
    else u
  let st1 := { st with users := st.users.map mark }
  if changed then (true, (deleteAllUserSessions st1 userId none).2)
  else (changed, st1)

/-! ## Authentication engine (`src/lib/auth.ts`) -/

def verifyPassword (password hash : String) : Bool := bcryptCompare password hash

/-- `createToken(user, sessionId, extended)`: signs a token embedding the
user's identity, roles, effective permissions and the session id;
expiry is now + 7 days, or + 30 days when extended. -/
def createToken (user : User) (sessionId : String) (extended : Bool) (now : Nat) : JwtToken :=
  let expiresIn := if extended then EXTENDED_SESSION_DURATION else SESSION_DURATION
  { payload :=
      { userId := user.id, email := user.email, discordId := user.discord_id,
        displayName := user.display_name, authorityLevel := user.authority_level,
        roles := user.roles,
        permissions := getEffectivePermissions user.authority_level user.permissions,
        sessionId := sessionId },
    iss := JWT_ISSUER, aud := JWT_AUDIENCE, iat := now, exp := now + expiresIn,
    signedWith := JWT_SECRET }

structure TokenValidationResult where
  valid : Bool
  user : Option AuthToken
  error : Option String
deriving DecidableEq

/-- `validateToken`: verify signature/issuer/audience/expiry, then require the
matching session row to exist, then require the user to exist and be enabled;
returns the token's claims on success. The function performs no writes, so it
returns the store unchanged. -/
def validateToken (st : DBState) (now : Nat) (token : JwtToken) :
    TokenValidationResult × DBState :=
  match jwtVerify token JWT_SECRET JWT_ISSUER JWT_AUDIENCE now with
  | none => ({ valid := false, user := none, error := some "Invalid or expired token" }, st)
  | some authPayload =>
    match getSessionByTokenHash st (hashToken token) with
    | none => ({ valid := false, user := none, error := some "Session not found or expired" }, st)
    | some _ =>
      match getUserById st authPayload.userId with
      | none => ({ valid := false, user := none, error := some "User disabled" }, st)
      | some user =>
        if user.enabled = 0 then
          ({ valid := false, user := none, error := some "User disabled" }, st)
        else
          ({ valid := true, user := some authPayload, error := none }, st)

/-- `Omit<AuthToken, 'sessionId'>` as returned by `login`. -/
structure UserInfo where
  userId : String
  email : String
  discordId : Option String
  displayName : String
  authorityLevel : Nat
  roles : List String
  permissions : List String
deriving DecidableEq

structure LoginResult where
  success : Bool
  token : Option JwtToken
  user : Option UserInfo
  requires2FA : Option Bool
  error : Option String
deriving DecidableEq

/-- `login(email, password, ip, userAgent, rememberMe)`. The fresh UUID from
`generateId()` is passed in as `sessionId`. -/
def login (st : DBState) (now : Nat) (email password : String)
    (ip userAgent : Option String) (rememberMe : Bool) (sessionId : String) :
    LoginResult × DBState :=
  match getUserByEmail st email with
  | none =>
      let st1 := logAudit st now none "LOGIN_FAILED" (some email) (some "User not found") ip
      ({ success := false, token := none, user := none, requires2FA := none,
         error := some "Invalid credentials" }, st1)
  | some user =>
    if user.enabled = 0 then
      let st1 := logAudit st now (some user.id) "LOGIN_FAILED" (some email)
        (some "Account disabled") ip
      ({ success := false, token := none, user := none, requires2FA := none,
         error := some "Account disabled" }, st1)
    else if verifyPassword password user.password_hash = false then
      let st1 := logAudit st now (some user.id) "LOGIN_FAILED" (some email)
        (some "Invalid password") ip
      ({ success := false, token := none, user := none, requires2FA := none,
         error := some "Invalid credentials" }, st1)
    else if user.totp_enabled ≠ 0 then
      let st1 := logAudit st now (some user.id) "LOGIN_2FA_REQUIRED" (some email) none ip
      ({ success := true, token := none, user := none, requires2FA := some true,
         error := none }, st1)
    else
      let expiresIn := if rememberMe then EXTENDED_SESSION_DURATION else SESSION_DURATION
      let expiresAt := now + expiresIn
      let token := createToken user sessionId rememberMe now
      let tokenHash := hashToken token
      let st1 := (createSession st now
        { id := sessionId, user_id := user.id, token_hash := tokenHash, ip := ip,
          user_agent := userAgent, is_remembered := if rememberMe then 1 else 0,
          expires_at := expiresAt }).2
      let st2 := logAudit st1 now (some user.id) "LOGIN_SUCCESS" (some email) none ip
      ({ success := true, token := some token,
         user := some
           { userId := user.id, email := user.email, discordId := user.discord_id,
             displayName := user.display_name, authorityLevel := user.authority_level,
             roles := user.roles,
             permissions := getEffectivePermissions user.authority_level user.permissions },
         requires2FA := none, error := none }, st2)

/-- `logout(token, ip)`: validate the token; if invalid, report failure with no
side effect; otherwise delete the matching session and audit `LOGOUT`. -/
def logout (st : DBState) (now : Nat) (token : JwtToken) (ip : Option String) :
    Bool × DBState :=
  let validation := (validateToken st now token).1
  match validation.valid, validation.user with
  | true, some au =>
      match getSessionByTokenHash st (hashToken token) with
      | some session =>
          let st1 := (deleteSession st session.id).2
          let st2 := logAudit st1 now (some au.userId) "LOGOUT" (some au.email) none ip
          (true, st2)
      | none => (false, st)
  | _, _ => (false, st)

/-- The login route (`pending2FA` branch) reads `result.user?.userId` to set
`session.pendingUserId`. -/
def pendingUserIdOf (result : LoginResult) : Option String :=
  result.user.map (fun u => u.userId)

/-! ## Approval workflow (`src/app/api/approvals/route.ts`) -/

def APPROVAL_REQUIRED_ACTIONS : List String :=
  ["USER_DELETE", "AUTHORITY_CHANGE_ADMIN", "USER_SUSPEND", "USER_UNSUSPEND", "RESET_2FA_ADMIN"]

/-- The authenticated iron-session user as the handlers see it. -/
structure SessionUser where
  userId : String
  authorityLevel : Nat
deriving DecidableEq

/-- Outcome of the approvals `PUT` handler (HTTP status plus body fields). -/
structure PutResult where
  status : Nat
  success : Bool
  error : Option String
deriving DecidableEq

/-- Result object of `executeApprovedAction`. -/
structure ActionResult where
  executed : Bool
  action : String
deriving DecidableEq

def getApprovalById (st : DBState) (id : String) : Option ApprovalRequest :=
  st.approvals.find? (fun a => decide (a.id = id))

/-- The decision UPDATE: set status, approver, comment, resolution time. -/
def updateApprovalDecision (st : DBState) (now : Nat)
    (approvalId decision approverId : String) (approverReason : Option String) : DBState :=
  let upd : ApprovalRequest → ApprovalRequest := fun a =>
    if a.id = approvalId then
      { a with status := decision, approver_id := some approverId,
               approver_reason := approverReason, resolved_at := some now }
    else a
  { st with approvals := st.approvals.map upd }

/-- `UPDATE approval_requests SET status = ? WHERE id = ?`. -/
def setApprovalStatus (st : DBState) (approvalId status : String) : DBState :=
  let upd : ApprovalRequest → ApprovalRequest := fun a =>
    if a.id = approvalId then { a with status := status } else a
  { st with approvals := st.approvals.map upd }

/-- `executeApprovedAction(approval, db)`: the switch over action types.
A case whose `target_user` is JS-falsy falls through to
`{ executed: false, action: 'Unknown action' }`. `USER_DELETE` does not
cascade to sessions (the SQLite `foreign_keys` pragma is never enabled). -/
def executeApprovedAction (st : DBState) (now : Nat) (approval : ApprovalRequest) :
    ActionResult × DBState :=
  let actionData := approval.action_data.getD { reason := none, newLevel := none }
  let unknown : ActionResult := { executed := false, action := "Unknown action" }
  if approval.action_type = "USER_DELETE" then
    if jsFalsy approval.target_user then (unknown, st)
    else
      let target := approval.target_user.getD ""
      ({ executed := true, action := "User deleted" },
       { st with users := st.users.filter (fun u => !decide (u.id = target)) })
  else if approval.action_type = "USER_SUSPEND" then
    if jsFalsy approval.target_user then (unknown, st)
    else
      let target := approval.target_user.getD ""
      let mark : User → User := fun u =>
        if u.id = target then
          { u with suspended := 1,
                   suspended_reason := some (jsOr actionData.reason approval.reason),
                   suspended_at := some now,
                   suspended_by := some approval.requester_id }
        else u
      let st1 := { st with users := st.users.map mark }
      let st2 := { st1 with sessions := st1.sessions.filter (fun s => !decide (s.user_id = target)) }
      ({ executed := true, action := "User suspended" }, st2)
  else if approval.action_type = "USER_UNSUSPEND" then
    if jsFalsy approval.target_user then (unknown, st)
    else
      let target := approval.target_user.getD ""
      let mark : User → User := fun u =>
        if u.id = target then
          { u with suspended := 0, suspended_reason := none,
                   suspended_at := none, suspended_by := none }
        else u
      ({ executed := true, action := "User unsuspended" }, { st with users := st.users.map mark })
  else if approval.action_type = "AUTHORITY_CHANGE_ADMIN" then
    match approval.target_user, actionData.newLevel with
    | some target, some newLevel =>
      if target = "" then (unknown, st)
      else
        let mark : User → User := fun u =>
          if u.id = target then { u with authority_level := newLevel } else u
        ({ executed := true, action := "Authority changed" }, { st with users := st.users.map mark })
    | _, _ => (unknown, st)
  else if approval.action_type = "RESET_2FA_ADMIN" then
    if jsFalsy approval.target_user then (unknown, st)
    else
      let target := approval.target_user.getD ""
      let mark : User → User := fun u =>
        if u.id = target then
          { u with totp_enabled := 0, totp_secret := none, recovery_codes := none }
        else u
      ({ executed := true, action := "2FA reset" }, { st with users := st.users.map mark })
  else (unknown, st)

/-- The approvals `PUT` handler (decide), after iron-session authentication:
authority gate, input validation, fetch, status check, two-person rule,
expiry check, decision persist + audit, then action execution when approved. -/
def decideApproval (st : DBState) (now : Nat) (sessionUser : SessionUser)
    (approvalId decision approverReason : Option String) (ip : Option String) :
    PutResult × DBState :=
  if sessionUser.authorityLevel < 3 then
    ({ status := 403, success := false, error := some "Insufficient permissions" }, st)
  else if jsFalsy approvalId || jsFalsy decision then
    ({ status := 400, success := false, error := some "Approval ID and decision required" }, st)
  else
    let aid := approvalId.getD ""
    let dec := decision.getD ""
    if ¬(dec = "approved" ∨ dec = "denied") then
      ({ status := 400, success := false,
         error := some "Decision must be approved or denied" }, st)
    else
      match getApprovalById st aid with
      | none =>
          ({ status := 404, success := false, error := some "Approval request not found" }, st)
      | some approval =>
        if approval.status ≠ "pending" then
          ({ status := 400, success := false, error := some "Request already resolved" }, st)
        else if approval.requester_id = sessionUser.userId then
          ({ status := 403, success := false,
             error := some "Cannot approve your own request (two-person rule)" }, st)
        else if approval.expires_at < now then
          ({ status := 400, success := false, error := some "Request has expired" },
           setApprovalStatus st aid "expired")
        else
          let st1 := updateApprovalDecision st now aid dec sessionUser.userId approverReason
          let st2 := logAudit st1 now (some sessionUser.userId)
            (if dec = "approved" then "APPROVAL_APPROVED" else "APPROVAL_DENIED")
            approval.target_user
            (some (dec ++ " request for " ++ approval.action_type ++
              (match approverReason with
               | some r => if r = "" then "" else ": " ++ r
               | none => "")))
            ip
          if dec = "approved" then
            let st3 := (executeApprovedAction st2 now approval).2
            ({ status := 200, success := true, error := none }, st3)
          else
            ({ status := 200, success := true, error := none }, st2)

/-! ## Recovery-code use (recovery-codes route, `PUT` handler) -/

/-- The iron-session fields the recovery-code handler reads. -/
structure IronSession where
  pending2FA : Bool
  pendingUserId : Option String
deriving DecidableEq

/-- The matching loop of the recovery-code handler: scan the stored hashes in
order and stop at the first match (`for ... { if (valid) { matchedIndex = i; break } }`). -/
def findMatchIdx (p : String → Bool) : List String → Option Nat
  | [] => none
  | h :: t => if p h then some 0 else (findMatchIdx p t).map (fun i => i + 1)

structure RecoveryResult where
  status : Nat
  success : Bool
  error : Option String
  remainingCodes : Option Nat
deriving DecidableEq

/-- `PUT` on the recovery-codes route: requires a pending-2FA session, matches
the submitted code (uppercased) against the stored bcrypt hashes in order,
rejects with an audited failure when nothing matches, and on a match removes
exactly the matched entry (`splice(matchedIndex, 1)`) before accepting. -/
def useRecoveryCode (st : DBState) (now : Nat) (sess : IronSession)
    (code : Option String) (ip : Option String) : RecoveryResult × DBState :=
  if ¬sess.pending2FA ∨ jsFalsy sess.pendingUserId then
    ({ status := 400, success := false, error := some "No pending 2FA verification",
       remainingCodes := none }, st)
  else if jsFalsy code then
    ({ status := 400, success := false, error := some "Recovery code required",
       remainingCodes := none }, st)
  else
    let uid := sess.pendingUserId.getD ""
    let c := code.getD ""
    match getUserById st uid with
    | none =>
        ({ status := 400, success := false, error := some "No recovery codes found",
           remainingCodes := none }, st)
    | some user =>
      match user.recovery_codes with
      | none =>
          ({ status := 400, success := false, error := some "No recovery codes found",
             remainingCodes := none }, st)
      | some hashedCodes =>
        match findMatchIdx (fun h => bcryptCompare (upperAscii c) h) hashedCodes with
        | none =>
            let st1 := logAudit st now (some uid) "RECOVERY_CODE_FAILED" none
              (some "Invalid recovery code attempt") ip
            ({ status := 401, success := false, error := some "Invalid recovery code",
               remainingCodes := none }, st1)
        | some matchedIndex =>
            let remaining := hashedCodes.eraseIdx matchedIndex
            let save : User → User := fun u =>
              if u.id = uid then { u with recovery_codes := some remaining, updated_at := now }
              else u
            let st1 := { st with users := st.users.map save }
            let st2 := logAudit st1 now (some uid) "RECOVERY_CODE_USED" none
              (some "Used recovery code") ip
            ({ status := 200, success := true, error := none,
               remainingCodes := some remaining.length }, st2)

/-! ## Concrete fixtures (used by witnesses and counterexamples) -/

def uAlice : User :=
  { id := "u1", email := "alice@usgrp.xyz", password_hash := bcryptHash "pw-alice",
    discord_id := none, display_name := "Alice", authority_level := 3, roles := [],
    permissions := [], enabled := 1, suspended := 0, suspended_reason := none,
    suspended_at := none, suspended_by := none, totp_secret := none, totp_enabled := 0,
    recovery_codes := none, created_at := 0, updated_at := 0 }

def uBob : User :=
  { id := "u2", email := "bob@usgrp.xyz", password_hash := bcryptHash "pw-bob",
    discord_id := none, display_name := "Bob", authority_level := 5, roles := [],
    permissions := [], enabled := 1, suspended := 0, suspended_reason := none,
    suspended_at := none, suspended_by := none, totp_secret := none, totp_enabled := 0,
    recovery_codes := none, created_at := 0, updated_at := 0 }

def uCarol : User :=
  { id := "u3", email := "carol@usgrp.xyz", password_hash := bcryptHash "pw-carol",
    discord_id := none, display_name := "Carol", authority_level := 0, roles := [],
    permissions := [], enabled := 1, suspended := 0, suspended_reason := none,
    suspended_at := none, suspended_by := none, totp_secret := some "SECRET",
    totp_enabled := 1,
    recovery_codes := some [bcryptHash "AAAA1111", bcryptHash "BBBB2222"],
    created_at := 0, updated_at := 0 }

def tokA1 : JwtToken := createToken uAlice "s1" false 0
def tokA2 : JwtToken := createToken uAlice "s2" false 0

def sessA1 : Session :=
  { id := "s1", user_id := "u1", token_hash := hashToken tokA1, ip := none,
    user_agent := none, device_name := none, device_fingerprint := none,
    last_active := 5, is_remembered := 0, expires_at := 1000000, created_at := 0 }

def sessA2 : Session :=
  { id := "s2", user_id := "u1", token_hash := hashToken tokA2, ip := none,
    user_agent := none, device_name := none, device_fingerprint := none,
    last_active := 10, is_remembered := 0, expires_at := 1000000, created_at := 0 }

def apPending : ApprovalRequest :=
  { id := "a1", requester_id := "u1", approver_id := none, action_type := "USER_SUSPEND",
    target_user := some "u3", action_data := none, reason := "policy breach",
    status := "pending", expires_at := 500, created_at := 0, resolved_at := none,
    approver_reason := none }

def apResolved : ApprovalRequest :=
  { id := "a2", requester_id := "u1", approver_id := some "u2",
    action_type := "USER_DELETE", target_user := some "u3", action_data := none,
    reason := "cleanup", status := "approved", expires_at := 500, created_at := 0,
    resolved_at := some 100, approver_reason := none }

def stBase : DBState :=
  { users := [uAlice, uBob, uCarol], sessions := [sessA1, sessA2],
    approvals := [apPending, apResolved], audit := [] }

/-! ## Shared helper lemmas -/

/-- A session absent by token hash makes `validateToken` return invalid,
whatever the outcome of the cryptographic verification. -/
lemma validateToken_invalid_of_no_session (st : DBState) (now : Nat) (t : JwtToken)
    (h : getSessionByTokenHash st (hashToken t) = none) :
    (validateToken st now t).1.valid = false := by
  unfold validateToken
  cases hjv : jwtVerify t JWT_SECRET JWT_ISSUER JWT_AUDIENCE now <;> simp [hjv, h]

/-- `find?` over a field-preserving map. -/
lemma find?_map_pred {α : Type} (f : α → α) (p : α → Bool) (l : List α)
    (hf : ∀ a, p (f a) = p a) : (l.map f).find? p = (l.find? p).map f := by
  induction l with
  | nil => simp
  | cons a t ih =>
      by_cases h : p a
      · simp [List.find?_cons, hf, h]
      · simp [List.find?_cons, hf, h, ih]

/-! ## Claims -/

/-- Claim C1: `validateToken` returns invalid when the matching session row is
absent (revoked), even when the token's signature and expiry are still valid;
returns invalid when the user record is missing or disabled; otherwise returns
valid with the token's claims. Round-trip: a token issued by a successful
login, whose session is then deleted, no longer validates. -/
theorem validateToken_gates_on_session_and_user :
    (∀ (st : DBState) (now : Nat) (t : JwtToken) (payload : AuthToken),
       jwtVerify t JWT_SECRET JWT_ISSUER JWT_AUDIENCE now = some payload →
       getSessionByTokenHash st (hashToken t) = none →
       (validateToken st now t).1 =
         { valid := false, user := none, error := some "Session not found or expired" }) ∧
    (∀ (st : DBState) (now : Nat) (t : JwtToken) (payload : AuthToken) (s : Session),
       jwtVerify t JWT_SECRET JWT_ISSUER JWT_AUDIENCE now = some payload →
       getSessionByTokenHash st (hashToken t) = some s →
       (getUserById st payload.userId = none ∨
        ∃ u, getUserById st payload.userId = some u ∧ u.enabled = 0) →
       (validateToken st now t).1 =
         { valid := false, user := none, error := some "User disabled" }) ∧
    (∀ (st : DBState) (now : Nat) (t : JwtToken) (payload : AuthToken) (s : Session)
       (u : User),
       jwtVerify t JWT_SECRET JWT_ISSUER JWT_AUDIENCE now = some payload →
       getSessionByTokenHash st (hashToken t) = some s →
       getUserById st payload.userId = some u →
       u.enabled ≠ 0 →
       (validateToken st now t).1 = { valid := true, user := some payload, error := none }) ∧
    (∀ (st : DBState) (now : Nat) (email password : String) (ip ua : Option String)
       (rm : Bool) (sid : String) (u : User) (res : LoginResult) (st2 : DBState)
       (t : JwtToken),
       getUserByEmail st email = some u →
       u.enabled ≠ 0 →
       verifyPassword password u.password_hash = true →
       u.totp_enabled = 0 →
       st.sessions.any (fun s => decide (s.id = sid) ||
         decide (s.token_hash = hashToken (createToken u sid rm now))) = false →
       login st now email password ip ua rm sid = (res, st2) →
       res.token = some t →
       ∀ now2 : Nat, (validateToken ((deleteSession st2 sid).2) now2 t).1.valid = false) := by
  refine ⟨?_, ?_, ?_, ?_⟩
  · intro st now t payload hjv hsess
    simp [validateToken, hjv, hsess]
  · intro st now t payload s hjv hsess huser
    rcases huser with h | ⟨u, hu, hen⟩
    · simp [validateToken, hjv, hsess, h]
    · simp [validateToken, hjv, hsess, hu, hen]
  · intro st now t payload s u hjv hsess hu hen
    simp [validateToken, hjv, hsess, hu, hen]
  · intro st now email password ip ua rm sid u res st2 t hu hen hpw htotp hfresh hlogin htok now2
    simp only [login, hu, hen, hpw, htotp, Prod.mk.injEq, ite_eq_right_iff,
      Bool.true_eq_false, imp_false, not_true_eq_false, if_neg] at hlogin
    obtain ⟨hres, hst2⟩ := hlogin
    have htok2 : t = createToken u sid rm now := by simpa using htok.symm
    apply validateToken_invalid_of_no_session
    unfold getSessionByTokenHash
    rw [List.find?_eq_none]
    intro s hs
    simp [deleteSession, logAudit, createSession, hfresh] at hs
    have hfr := List.any_eq_false.mp hfresh s hs.1
    simp only [Bool.or_eq_true, decide_eq_true_eq, not_or] at hfr
    simp only [decide_eq_true_eq, htok2]
    exact hfr.2

def stC1 : DBState := { users := [uAlice], sessions := [], approvals := [], audit := [] }

/-- Witness for C1: concrete round-trip — Alice logs in, the created session
is revoked, and the issued token no longer validates. -/
theorem validateToken_gates_on_session_and_user_witness :
    (validateToken
      ((deleteSession (login stC1 0 "Alice@usgrp.xyz" "pw-alice" none none false "s9").2 "s9").2)
      3 (createToken uAlice "s9" false 0)).1.valid = false :=
  validateToken_gates_on_session_and_user.2.2.2 stC1 0 "Alice@usgrp.xyz" "pw-alice"
    none none false "s9" uAlice
    (login stC1 0 "Alice@usgrp.xyz" "pw-alice" none none false "s9").1
    (login stC1 0 "Alice@usgrp.xyz" "pw-alice" none none false "s9").2
    (createToken uAlice "s9" false 0)
    (by decide) (by decide) (by decide) (by decide) (by decide) rfl (by decide) 3

/-- Claim C2 (refuting theorem): a successful non-2FA login appends the new
session without evicting anything — `login` never invokes
`enforceSessionLimit`, so the per-user concurrency limit (`MAX_SESSIONS = 2`)
is not enforced: a user already holding `MAX_SESSIONS` sessions ends up with
`MAX_SESSIONS + 1` after another successful login. -/
theorem login_appends_session_without_eviction :
    ∀ (st : DBState) (now : Nat) (email password : String) (ip ua : Option String)
      (rm : Bool) (sid : String) (u : User),
      getUserByEmail st email = some u →
      u.enabled ≠ 0 →
      verifyPassword password u.password_hash = true →
      u.totp_enabled = 0 →
      st.sessions.any (fun s => decide (s.id = sid) ||
        decide (s.token_hash = hashToken (createToken u sid rm now))) = false →
      (login st now email password ip ua rm sid).2.sessions =
        st.sessions ++
          [{ id := sid, user_id := u.id, token_hash := hashToken (createToken u sid rm now),
             ip := ip, user_agent := ua, device_name := none, device_fingerprint := none,
             last_active := now, is_remembered := if rm then 1 else 0,
             expires_at := now + (if rm then EXTENDED_SESSION_DURATION else SESSION_DURATION),
             created_at := now }] := by
  intro st now email password ip ua rm sid u hu hen hpw htotp hfresh
  simp [login, hu, hen, hpw, htotp, logAudit, createSession, hfresh]

def stC2 : DBState := { users := [uAlice], sessions := [sessA1, sessA2], approvals := [],
                        audit := [] }

/-- Witness for C2: Alice already holds `MAX_SESSIONS = 2` live sessions; a
third successful login leaves her with 3 sessions (no eviction happens). -/
theorem login_appends_session_without_eviction_witness :
    (login stC2 20 "alice@usgrp.xyz" "pw-alice" none none false "s3").2.sessions =
      stC2.sessions ++
        [{ id := "s3", user_id := "u1", token_hash := hashToken (createToken uAlice "s3" false 20),
           ip := none, user_agent := none, device_name := none, device_fingerprint := none,
           last_active := 20, is_remembered := 0,
           expires_at := 20 + SESSION_DURATION, created_at := 20 }] :=
  login_appends_session_without_eviction stC2 20 "alice@usgrp.xyz" "pw-alice" none none
    false "s3" uAlice (by decide) (by decide) (by decide) (by decide) (by decide)

/-- Claim C3: deciding a request whose `requester_id` equals the deciding
approver's user id never succeeds and never changes the store (the request
stays pending), regardless of the approver's authority level. -/
theorem decideApproval_rejects_self_approval :
    ∀ (st : DBState) (now : Nat) (su : SessionUser)
      (approvalId decision approverReason ip : Option String) (a : ApprovalRequest),
      getApprovalById st (approvalId.getD "") = some a →
      a.requester_id = su.userId →
      (decideApproval st now su approvalId decision approverReason ip).1.success = false ∧
      (decideApproval st now su approvalId decision approverReason ip).2 = st := by
  intro st now su approvalId decision approverReason ip a hfind hself
  unfold decideApproval
  by_cases h1 : su.authorityLevel < 3
  · simp [h1]
  · simp only [h1, if_false]
    by_cases h2 : jsFalsy approvalId || jsFalsy decision
    · simp [h2]
    · simp only [h2, if_false]
      by_cases h3 : decision.getD "" = "approved" ∨ decision.getD "" = "denied"
      · simp only [h3, not_true_eq_false, if_false]
        rw [hfind]
        by_cases h4 : a.status ≠ "pending"
        · simp [h4]
        · simp only [h4, if_false]
          simp [hself]
      · simp [h3]

/-- Witness for C3: a superuser-level approver (level 5) trying to decide
their own pending request `a1` is rejected and the store is untouched. -/
theorem decideApproval_rejects_self_approval_witness :
    (decideApproval stBase 100 { userId := "u1", authorityLevel := 5 }
        (some "a1") (some "approved") none none).1.success = false ∧
    (decideApproval stBase 100 { userId := "u1", authorityLevel := 5 }
        (some "a1") (some "approved") none none).2 = stBase :=
  decideApproval_rejects_self_approval stBase 100 { userId := "u1", authorityLevel := 5 }
    (some "a1") (some "approved") none none apPending (by decide) (by decide)

/-- `executeApprovedAction` mutates only users and sessions, never approvals. -/
lemma executeApprovedAction_preserves_approvals (st : DBState) (now : Nat)
    (ap : ApprovalRequest) : (executeApprovedAction st now ap).2.approvals = st.approvals := by
  unfold executeApprovedAction
  dsimp only
  repeat' split
  all_goals rfl

/-- Claim C4: an approval request leaves `pending` at most once. A decide call
on a non-pending request is rejected as already resolved with the store
unchanged; a decide call on a pending request past `expires_at` flips it to
`expired` and rejects the decision; and no decide call ever changes the status
of a request that is already non-pending. -/
theorem approval_transitions_out_of_pending_at_most_once :
    (∀ (st : DBState) (now : Nat) (su : SessionUser) (aid dec : String)
       (reason ip : Option String) (a : ApprovalRequest),
       ¬su.authorityLevel < 3 →
       aid ≠ "" →
       (dec = "approved" ∨ dec = "denied") →
       getApprovalById st aid = some a →
       a.status ≠ "pending" →
       decideApproval st now su (some aid) (some dec) reason ip =
         ({ status := 400, success := false, error := some "Request already resolved" }, st)) ∧
    (∀ (st : DBState) (now : Nat) (su : SessionUser) (aid dec : String)
       (reason ip : Option String) (a : ApprovalRequest),
       ¬su.authorityLevel < 3 →
       aid ≠ "" →
       (dec = "approved" ∨ dec = "denied") →
       getApprovalById st aid = some a →
       a.status = "pending" →
       a.requester_id ≠ su.userId →
       a.expires_at < now →
       decideApproval st now su (some aid) (some dec) reason ip =
         ({ status := 400, success := false, error := some "Request has expired" },
          setApprovalStatus st aid "expired") ∧
       getApprovalById (setApprovalStatus st aid "expired") aid =
         some { a with status := "expired" }) ∧
    (∀ (st : DBState) (now : Nat) (su : SessionUser)
       (approvalId decision reason ip : Option String),
       (st.approvals.map (fun x => x.id)).Nodup →
       ∀ a ∈ st.approvals, a.status ≠ "pending" →
       a ∈ (decideApproval st now su approvalId decision reason ip).2.approvals) := by
  refine ⟨?_, ?_, ?_⟩
  · intro st now su aid dec reason ip a h1 h2 h3 hfind hstat
    have hdne : dec ≠ "" := by rcases h3 with rfl | rfl <;> decide
    simp [decideApproval, h1, jsFalsy, h2, hdne, h3, hfind, hstat]
  · intro st now su aid dec reason ip a h1 h2 h3 hfind hstat hne hexp
    have hdne : dec ≠ "" := by rcases h3 with rfl | rfl <;> decide
    constructor
    · simp [decideApproval, h1, jsFalsy, h2, hdne, h3, hfind, hstat, hne, hexp]
    · have hid : a.id = aid := by
        have := List.find?_some hfind
        simpa using this
      unfold getApprovalById setApprovalStatus
      rw [find?_map_pred]
      · unfold getApprovalById at hfind
        rw [hfind]
        simp [hid]
      · intro x
        by_cases hx : x.id = aid <;> simp [hx]
  · intro st now su approvalId decision reason ip hnd a ha hstat
    unfold decideApproval
    by_cases h1 : su.authorityLevel < 3
    · simpa [h1] using ha
    · simp only [h1, if_false]
      by_cases h2 : jsFalsy approvalId || jsFalsy decision
      · simpa [h2] using ha
      · simp only [h2, if_false]
        by_cases h3 : decision.getD "" = "approved" ∨ decision.getD "" = "denied"
        · simp only [h3, not_true_eq_false, if_false]
          cases hfind : getApprovalById st (approvalId.getD "") with
          | none => simpa using ha
          | some a0 =>
            have ha0mem : a0 ∈ st.approvals := List.mem_of_find?_eq_some hfind
            have ha0id : a0.id = approvalId.getD "" := by
              have := List.find?_some hfind
              simpa using this
            by_cases h4 : a0.status ≠ "pending"
            · simpa [h4] using ha
            · simp only [h4, if_false]
              have haid : ¬a.id = approvalId.getD "" := by
                intro hcontra
                have : a = a0 := by
                  apply List.inj_on_of_nodup_map hnd ha ha0mem
                  rw [hcontra, ha0id]
                rw [this] at hstat
                exact hstat (not_not.mp (by simpa using h4))
              by_cases h5 : a0.requester_id = su.userId
              · simpa [h5] using ha
              · simp only [h5, if_false]
                by_cases h6 : a0.expires_at < now
                · have hmem1 : a ∈ (setApprovalStatus st (approvalId.getD "") "expired").approvals := by
                    unfold setApprovalStatus
                    dsimp only
                    exact List.mem_map.mpr ⟨a, ha, by simp [haid]⟩
                  simpa [h6] using hmem1
                · have hmem2 : a ∈ (updateApprovalDecision st now (approvalId.getD "")
                      (decision.getD "") su.userId reason).approvals := by
                    unfold updateApprovalDecision
                    dsimp only
                    exact List.mem_map.mpr ⟨a, ha, by simp [haid]⟩
                  by_cases h7 : decision.getD "" = "approved"
                  · simp only [h6, if_false, h7, if_true, Bool.false_eq_true]
                    rw [executeApprovedAction_preserves_approvals]
                    simpa [logAudit, h7] using hmem2
                  · simp only [h6, if_false, h7, Bool.false_eq_true]
                    simpa [logAudit] using hmem2
        · simpa [h3] using ha

/-- Witness for C4: deciding the already-approved request `a2` is rejected as
already resolved with the store unchanged; deciding the pending request `a1`
at time 600 (past its expiry 500) flips it to `expired` and rejects; and the
resolved request `a2` survives a decide call with its status intact. -/
theorem approval_transitions_out_of_pending_at_most_once_witness :
    (decideApproval stBase 600 { userId := "u2", authorityLevel := 5 }
        (some "a2") (some "denied") none none =
      ({ status := 400, success := false, error := some "Request already resolved" }, stBase)) ∧
    (decideApproval stBase 600 { userId := "u2", authorityLevel := 5 }
        (some "a1") (some "approved") none none =
      ({ status := 400, success := false, error := some "Request has expired" },
       setApprovalStatus stBase "a1" "expired")) ∧
    (apResolved ∈ (decideApproval stBase 600 { userId := "u2", authorityLevel := 5 }
        (some "a1") (some "approved") none none).2.approvals) :=
  ⟨approval_transitions_out_of_pending_at_most_once.1 stBase 600
      { userId := "u2", authorityLevel := 5 } "a2" "denied" none none apResolved
      (by decide) (by decide) (Or.inr rfl) (by decide) (by decide),
   (approval_transitions_out_of_pending_at_most_once.2.1 stBase 600
      { userId := "u2", authorityLevel := 5 } "a1" "approved" none none apPending
      (by decide) (by decide) (Or.inl rfl) (by decide) (by decide) (by decide) (by decide)).1,
   approval_transitions_out_of_pending_at_most_once.2.2 stBase 600
      { userId := "u2", authorityLevel := 5 } (some "a1") (some "approved") none none
      (by decide) apResolved (by decide) (by decide)⟩

lemma findMatchIdx_eq_none (p : String → Bool) (l : List String)
    (h : ∀ y ∈ l, p y = false) : findMatchIdx p l = none := by
  induction l with
  | nil => rfl
  | cons hd tl ih =>
      rw [findMatchIdx, if_neg]
      · rw [ih fun y hy => h y (List.mem_cons_of_mem hd hy)]
        rfl
      · simp [h hd (List.mem_cons_self hd tl)]

/-- Once the unique entry matching `p` is removed, nothing matches any more:
if every match equals a fixed value `x` and the list has no duplicates, erasing
the found index leaves a list with no match. -/
lemma findMatchIdx_eraseIdx_none (p : String → Bool) (x : String)
    (hp : ∀ y, p y = true → y = x) :
    ∀ (l : List String) (i : Nat), l.Nodup → findMatchIdx p l = some i →
      findMatchIdx p (l.eraseIdx i) = none := by
  intro l
  induction l with
  | nil => intro i _ h; exact absurd h (by simp [findMatchIdx])
  | cons hd tl ih =>
      intro i hnd hf
      rw [findMatchIdx] at hf
      rcases List.nodup_cons.mp hnd with ⟨hhd, htl⟩
      by_cases hph : p hd
      · rw [if_pos hph] at hf
        injection hf with hi
        rw [← hi]
        apply findMatchIdx_eq_none
        intro y hy
        by_contra hcon
        have hyx : y = x := hp y (by simpa using hcon)
        have hhdx : hd = x := hp hd hph
        exact hhd (by rw [hhdx, ← hyx]; exact hy)
      · rw [if_neg hph] at hf
        cases hj : findMatchIdx p tl with
        | none => rw [hj] at hf; exact absurd hf (by simp)
        | some j =>
            rw [hj] at hf
            simp only [Option.map_some'] at hf
            injection hf with hi
            rw [← hi]
            show findMatchIdx p (hd :: tl.eraseIdx j) = none
            rw [findMatchIdx, if_neg hph, ih j htl hj]
            rfl

/-- Claim C5: recovery codes are single-use. A submitted code matching one of
the stored hashed codes is accepted and the matched hash is removed from
storage in the same operation, so resubmitting the same code is rejected; and
any rejected attempt leaves the users table (hence the stored codes)
unchanged. -/
theorem recovery_code_single_use :
    (∀ (st : DBState) (now now2 : Nat) (sess : IronSession) (c uid : String) (u : User)
       (codes : List String) (i : Nat) (ip ip2 : Option String),
       sess.pending2FA = true →
       sess.pendingUserId = some uid →
       uid ≠ "" →
       c ≠ "" →
       getUserById st uid = some u →
       u.recovery_codes = some codes →
       codes.Nodup →
       findMatchIdx (fun h => bcryptCompare (upperAscii c) h) codes = some i →
       (useRecoveryCode st now sess (some c) ip).1.success = true ∧
       (∃ u2, getUserById (useRecoveryCode st now sess (some c) ip).2 uid = some u2 ∧
              u2.recovery_codes = some (codes.eraseIdx i)) ∧
       (useRecoveryCode (useRecoveryCode st now sess (some c) ip).2 now2 sess
           (some c) ip2).1 =
         { status := 401, success := false, error := some "Invalid recovery code",
           remainingCodes := none }) ∧
    (∀ (st : DBState) (now : Nat) (sess : IronSession) (code ip : Option String),
       (useRecoveryCode st now sess code ip).1.success = false →
       (useRecoveryCode st now sess code ip).2.users = st.users) := by
  constructor
  · intro st now now2 sess c uid u codes i ip ip2 hp2 hpend huid hc hu hrc hnd hidx
    have huid2 : u.id = uid := by
      have := List.find?_some hu
      simpa using this
    have hfirst : useRecoveryCode st now sess (some c) ip =
        ({ status := 200, success := true, error := none,
           remainingCodes := some (codes.eraseIdx i).length },
         logAudit
           { st with users := st.users.map (fun u2 =>
               if u2.id = uid then
                 { u2 with recovery_codes := some (codes.eraseIdx i), updated_at := now }
               else u2) }
           now (some uid) "RECOVERY_CODE_USED" none (some "Used recovery code") ip) := by
      simp [useRecoveryCode, hp2, hpend, jsFalsy, huid, hc, hu, hrc, hidx]
    have hlookup : getUserById (useRecoveryCode st now sess (some c) ip).2 uid =
        some { u with recovery_codes := some (codes.eraseIdx i), updated_at := now } := by
      rw [hfirst]
      unfold getUserById logAudit
      dsimp only
      rw [find?_map_pred]
      · unfold getUserById at hu
        rw [hu]
        simp [huid2]
      · intro a
        by_cases hx : a.id = uid <;> simp [hx]
    have hnone : findMatchIdx (fun h => bcryptCompare (upperAscii c) h)
        (codes.eraseIdx i) = none := by
      apply findMatchIdx_eraseIdx_none (fun h => bcryptCompare (upperAscii c) h)
        (bcryptHash (upperAscii c)) ?_ codes i hnd hidx
      intro y hy
      simpa [bcryptCompare] using hy
    refine ⟨by rw [hfirst], ⟨_, hlookup, rfl⟩, ?_⟩
    have hlookup2 := hlookup
    rw [hfirst] at hlookup2
    rw [hfirst]
    simp [useRecoveryCode, hp2, hpend, jsFalsy, huid, hc, hlookup2, hnone]
  · intro st now sess code ip hfail
    unfold useRecoveryCode at hfail ⊢
    by_cases h1 : ¬sess.pending2FA = true ∨ jsFalsy sess.pendingUserId = true
    · rw [if_pos h1]
    · rw [if_neg h1] at hfail ⊢
      by_cases h2 : jsFalsy code = true
      · rw [if_pos h2]
      · rw [if_neg h2] at hfail ⊢
        dsimp only at hfail ⊢
        cases hu : getUserById st (sess.pendingUserId.getD "") with
        | none => simp [hu]
        | some u =>
          cases hrc : u.recovery_codes with
          | none => simp [hu, hrc]
          | some codes =>
            cases hidx : findMatchIdx
                (fun h => bcryptCompare (upperAscii (code.getD "")) h) codes with
            | none => simp [hu, hrc, hidx, logAudit]
            | some i => simp [hu, hrc, hidx] at hfail

def stC5 : DBState := { users := [uCarol], sessions := [], approvals := [], audit := [] }

/-- Witness for C5: Carol's code `aaaa1111` (uppercased to its stored hash)
is accepted once, its hash is removed, and the identical resubmission is
rejected with 401. -/
theorem recovery_code_single_use_witness :
    ((useRecoveryCode stC5 50 { pending2FA := true, pendingUserId := some "u3" }
        (some "aaaa1111") none).1.success = true ∧
     (∃ u2, getUserById (useRecoveryCode stC5 50
              { pending2FA := true, pendingUserId := some "u3" }
              (some "aaaa1111") none).2 "u3" = some u2 ∧
            u2.recovery_codes =
              some ([bcryptHash "AAAA1111", bcryptHash "BBBB2222"].eraseIdx 0)) ∧
     (useRecoveryCode
        (useRecoveryCode stC5 50 { pending2FA := true, pendingUserId := some "u3" }
          (some "aaaa1111") none).2
        60 { pending2FA := true, pendingUserId := some "u3" } (some "aaaa1111") none).1 =
       { status := 401, success := false, error := some "Invalid recovery code",
         remainingCodes := none }) :=
  recovery_code_single_use.1 stC5 50 60
    { pending2FA := true, pendingUserId := some "u3" } "aaaa1111" "u3" uCarol
    [bcryptHash "AAAA1111", bcryptHash "BBBB2222"] 0 none none
    rfl rfl (by decide) (by decide) (by decide) (by decide) (by decide) (by decide)

/-- Claim C6: a login with an unknown email and a login with a known, enabled
account but a wrong password produce the identical client-visible result —
failure with the generic error `Invalid credentials` — so the response does
not reveal whether the user exists. -/
theorem login_failure_hides_user_existence :
    ∀ (st : DBState) (now : Nat) (e1 p1 e2 p2 : String) (ip ua : Option String)
      (rm : Bool) (sid : String) (u : User),
      getUserByEmail st e1 = none →
      getUserByEmail st e2 = some u →
      u.enabled ≠ 0 →
      verifyPassword p2 u.password_hash = false →
      (login st now e1 p1 ip ua rm sid).1 = (login st now e2 p2 ip ua rm sid).1 ∧
      (login st now e1 p1 ip ua rm sid).1 =
        { success := false, token := none, user := none, requires2FA := none,
          error := some "Invalid credentials" } := by
  intro st now e1 p1 e2 p2 ip ua rm sid u h1 h2 hen hpw
  constructor
  · simp [login, h1, h2, hen, hpw]
  · simp [login, h1]

def stC6 : DBState := { users := [uAlice], sessions := [], approvals := [], audit := [] }

/-- Witness for C6: an unknown address and Alice's address with a wrong
password yield the same generic failure. -/
theorem login_failure_hides_user_existence_witness :
    ((login stC6 0 "nobody@usgrp.xyz" "guess" none none false "s1").1 =
       (login stC6 0 "alice@usgrp.xyz" "wrong-password" none none false "s1").1) ∧
    (login stC6 0 "nobody@usgrp.xyz" "guess" none none false "s1").1 =
      { success := false, token := none, user := none, requires2FA := none,
        error := some "Invalid credentials" } :=
  login_failure_hides_user_existence stC6 0 "nobody@usgrp.xyz" "guess"
    "alice@usgrp.xyz" "wrong-password" none none false "s1" uAlice
    (by decide) (by decide) (by decide) (by decide)

/-- Counterexample for C7: a successful validation at time 100 leaves the
matching session's `last_active` at its old value 5 — `validateToken` does not
update it to now as claimed. -/
theorem validateToken_no_touch_counterexample :
    (validateToken stBase 100 tokA1).1.valid = true ∧
    getSessionById (validateToken stBase 100 tokA1).2 "s1" = some sessA1 ∧
    sessA1.last_active = 5 ∧ sessA1.last_active ≠ 100 := by decide

/-- Amended C7: `updateSessionActivity` (the touch operation) does set the
matching session's `last_active` to now when invoked, but `validateToken`
never invokes it — `validateToken` performs no write at all, returning the
store unchanged, so successful validation leaves `last_active` untouched. -/
theorem validateToken_readonly_and_touch_correct :
    (∀ (st : DBState) (now : Nat) (t : JwtToken), (validateToken st now t).2 = st) ∧
    (∀ (st : DBState) (now : Nat) (sid : String) (s : Session),
       s ∈ (updateSessionActivity st now sid).sessions → s.id = sid →
       s.last_active = now) := by
  constructor
  · intro st now t
    unfold validateToken
    repeat' split
    all_goals rfl
  · intro st now sid s hs hid
    unfold updateSessionActivity at hs
    dsimp only at hs
    rcases List.mem_map.mp hs with ⟨s0, hs0, rfl⟩
    by_cases h : s0.id = sid
    · rw [if_pos h]
    · rw [if_neg h] at hid ⊢
      exact absurd hid h

/-- Witness for the amended C7: validation at time 100 returns the base store
unchanged, and the touch operation applied to session `s1` yields
`last_active = 100`. -/
theorem validateToken_readonly_and_touch_correct_witness :
    (validateToken stBase 100 tokA1).2 = stBase ∧
    ({ sessA1 with last_active := 100 } : Session).last_active = 100 :=
  ⟨validateToken_readonly_and_touch_correct.1 stBase 100 tokA1,
   validateToken_readonly_and_touch_correct.2 stBase 100 "s1"
     { sessA1 with last_active := 100 } (by decide) (by decide)⟩

/-- Claim C8: suspending a user deletes all of that user's sessions and sets
the suspension flag, reason, actor and timestamp — both through the direct
`suspendUser` operation and through execution of an approved `USER_SUSPEND`
action. -/
theorem suspension_revokes_all_sessions :
    (∀ (st : DBState) (now : Nat) (uid reason actor : String) (u : User),
       getUserById st uid = some u →
       (suspendUser st now uid reason actor).1 = true ∧
       (suspendUser st now uid reason actor).2.sessions.filter
         (fun s => decide (s.user_id = uid)) = [] ∧
       (∀ u2 ∈ (suspendUser st now uid reason actor).2.users, u2.id = uid →
          u2.suspended = 1 ∧ u2.suspended_reason = some reason ∧
          u2.suspended_by = some actor ∧ u2.suspended_at = some now)) ∧
    (∀ (st : DBState) (now : Nat) (a : ApprovalRequest) (target : String),
       a.action_type = "USER_SUSPEND" →
       a.target_user = some target →
       target ≠ "" →
       (executeApprovedAction st now a).1 =
         { executed := true, action := "User suspended" } ∧
       (executeApprovedAction st now a).2.sessions.filter
         (fun s => decide (s.user_id = target)) = [] ∧
       (∀ u2 ∈ (executeApprovedAction st now a).2.users, u2.id = target →
          u2.suspended = 1 ∧
          u2.suspended_reason =
            some (jsOr (a.action_data.getD { reason := none, newLevel := none }).reason
                       a.reason) ∧
          u2.suspended_by = some a.requester_id ∧ u2.suspended_at = some now)) := by
  constructor
  · intro st now uid reason actor u hu
    have hu2 : st.users.find? (fun x => decide (x.id = uid)) = some u := hu
    have hany : st.users.any (fun x => decide (x.id = uid)) = true := by
      rw [List.any_eq_true]
      refine ⟨u, List.mem_of_find?_eq_some hu2, ?_⟩
      have h3 := List.find?_some hu2
      simpa using h3
    unfold suspendUser
    dsimp only
    rw [if_pos hany]
    refine ⟨rfl, ?_, ?_⟩
    · simp [deleteAllUserSessions, List.filter_filter]
    · intro u2 hu2 hid2
      simp only [deleteAllUserSessions] at hu2
      rcases List.mem_map.mp hu2 with ⟨u0, hu0, rfl⟩
      by_cases h : u0.id = uid
      · simp [h]
      · rw [if_neg h] at hid2
        exact absurd hid2 h
  · intro st now a target htype htarget htne
    unfold executeApprovedAction
    rw [htype, htarget]
    rw [if_neg (by decide : ¬("USER_SUSPEND" = "USER_DELETE"))]
    rw [if_pos rfl]
    rw [if_neg (by simp [jsFalsy, htne])]
    dsimp only
    simp only [Option.getD_some]
    refine ⟨?_, ?_, ?_⟩
    · trivial
    · simp [List.filter_filter]
    · intro u2 hu2 hid2
      rcases List.mem_map.mp hu2 with ⟨u0, hu0, rfl⟩
      by_cases h : u0.id = target
      · simp [h]
      · rw [if_neg h] at hid2
        exact absurd hid2 h

/-- Witness for C8: suspending Alice (`u1`, holding 2 active sessions) leaves
her with 0 sessions and the suspension fields set; executing the approved
`USER_SUSPEND` request against Carol does the same through the approval path. -/
theorem suspension_revokes_all_sessions_witness :
    ((suspendUser stBase 200 "u1" "violation" "u2").1 = true ∧
     (suspendUser stBase 200 "u1" "violation" "u2").2.sessions.filter
       (fun s => decide (s.user_id = "u1")) = [] ∧
     (∀ u2 ∈ (suspendUser stBase 200 "u1" "violation" "u2").2.users, u2.id = "u1" →
        u2.suspended = 1 ∧ u2.suspended_reason = some "violation" ∧
        u2.suspended_by = some "u2" ∧ u2.suspended_at = some 200)) ∧
    ((executeApprovedAction stBase 300 apPending).1 =
       { executed := true, action := "User suspended" } ∧
     (executeApprovedAction stBase 300 apPending).2.sessions.filter
       (fun s => decide (s.user_id = "u3")) = [] ∧
     (∀ u2 ∈ (executeApprovedAction stBase 300 apPending).2.users, u2.id = "u3" →
        u2.suspended = 1 ∧
        u2.suspended_reason =
          some (jsOr (apPending.action_data.getD { reason := none, newLevel := none }).reason
                     apPending.reason) ∧
        u2.suspended_by = some apPending.requester_id ∧ u2.suspended_at = some 300)) :=
  ⟨suspension_revokes_all_sessions.1 stBase 200 "u1" "violation" "u2" uAlice (by decide),
   suspension_revokes_all_sessions.2 stBase 300 apPending "u3" (by decide) (by decide)
     (by decide)⟩

/-- Claim C9: `logout` is failure-idempotent. After a successful logout, a
second logout with the same token reports failure and performs no state
change — no session is deleted and no audit entry is written. The hypothesis
that token hashes are pairwise distinct mirrors the `token_hash UNIQUE`
constraint of the sessions table. -/
theorem logout_failure_idempotent :
    ∀ (st : DBState) (now now2 : Nat) (tok : JwtToken) (ip ip2 : Option String)
      (st1 : DBState),
      (st.sessions.map (fun s => s.token_hash)).Nodup →
      logout st now tok ip = (true, st1) →
      logout st1 now2 tok ip2 = (false, st1) := by
  intro st now now2 tok ip ip2 st1 hnd hlogout
  unfold logout at hlogout
  dsimp only at hlogout
  cases hval : (validateToken st now tok).1.valid with
  | false => rw [hval] at hlogout; simp at hlogout
  | true =>
    rw [hval] at hlogout
    cases huser : (validateToken st now tok).1.user with
    | none => rw [huser] at hlogout; simp at hlogout
    | some au =>
      rw [huser] at hlogout
      cases hsess : getSessionByTokenHash st (hashToken tok) with
      | none => rw [hsess] at hlogout; simp at hlogout
      | some s =>
        rw [hsess] at hlogout
        simp only [Prod.mk.injEq, true_and] at hlogout
        have hsess2 : st.sessions.find? (fun x => decide (x.token_hash = hashToken tok)) =
            some s := hsess
        have hsmem : s ∈ st.sessions := List.mem_of_find?_eq_some hsess2
        have hshash : s.token_hash = hashToken tok := by
          have h3 := List.find?_some hsess2
          simpa using h3
        have hnone : getSessionByTokenHash st1 (hashToken tok) = none := by
          rw [← hlogout]
          unfold getSessionByTokenHash deleteSession logAudit
          dsimp only
          rw [List.find?_eq_none]
          intro x hx
          rcases List.mem_filter.mp hx with ⟨hxmem, hxid⟩
          simp only [decide_eq_true_eq]
          intro hxh
          have hxs : x = s := by
            apply List.inj_on_of_nodup_map hnd hxmem hsmem
            rw [hxh, hshash]
          rw [hxs] at hxid
          simp at hxid
        have hv2 : (validateToken st1 now2 tok).1.valid = false :=
          validateToken_invalid_of_no_session st1 now2 tok hnone
        unfold logout
        dsimp only
        cases hxu : (validateToken st1 now2 tok).1.user <;> simp [hv2]

/-- Witness for C9: Alice logs out session `s1`; repeating the same logout
reports failure and leaves the store exactly as after the first call. -/
theorem logout_failure_idempotent_witness :
    logout (logout stBase 50 tokA1 none).2 60 tokA1 none =
      (false, (logout stBase 50 tokA1 none).2) :=
  logout_failure_idempotent stBase 50 60 tokA1 none none
    (logout stBase 50 tokA1 none).2 (by decide) (by decide)

/-- Claim C10: when the account's second factor is enabled and the credentials
are correct, `login` returns success with `requires2FA = true` but carries
neither a token nor a user object; consequently the login route's
`pendingUserId` — read as `result.user?.userId` — is absent. -/
theorem login_2fa_pending_carries_no_user :
    ∀ (st : DBState) (now : Nat) (email password : String) (ip ua : Option String)
      (rm : Bool) (sid : String) (u : User),
      getUserByEmail st email = some u →
      u.enabled ≠ 0 →
      verifyPassword password u.password_hash = true →
      u.totp_enabled ≠ 0 →
      (login st now email password ip ua rm sid).1 =
        { success := true, token := none, user := none, requires2FA := some true,
          error := none } ∧
      pendingUserIdOf (login st now email password ip ua rm sid).1 = none := by
  intro st now email password ip ua rm sid u hu hen hpw htotp
  have hred : (login st now email password ip ua rm sid).1 =
      { success := true, token := none, user := none, requires2FA := some true,
        error := none } := by
    simp [login, hu, hen, hpw, htotp]
  exact ⟨hred, by rw [hred]; rfl⟩

def stC10 : DBState := { users := [uCarol], sessions := [], approvals := [], audit := [] }

/-- Witness for C10: Carol (2FA enabled) supplies correct credentials; the
pending result has no token and no user, and the route's `pendingUserId`
comes out empty. -/
theorem login_2fa_pending_carries_no_user_witness :
    (login stC10 0 "carol@usgrp.xyz" "pw-carol" none none false "s7").1 =
      { success := true, token := none, user := none, requires2FA := some true,
        error := none } ∧
    pendingUserIdOf (login stC10 0 "carol@usgrp.xyz" "pw-carol" none none false "s7").1 =
      none :=
  login_2fa_pending_carries_no_user stC10 0 "carol@usgrp.xyz" "pw-carol" none none false
    "s7" uCarol (by decide) (by decide) (by decide) (by decide)
